import Mathlib

/-!
Verification development for the questions-visuallizer pipeline.

The repository is a Next.js application with two API route handlers:
* the visualize endpoint (`POST` of the visualize route): reads `GEMINI_API_KEY`,
  parses a JSON body `\x7b problemText \x7d`, builds a prompt from
  `ENGINEERED_PROMPT_TEMPLATE`, calls the generation model, sanitizes the
  returned code, executes it in a `python -c` subprocess (`executePython`),
  extracts a base64 payload between fixed markers from stdout, and responds;
* the OCR endpoint (`POST` of the ocr route): forwards an uploaded file to the
  OCR.space API and returns the extracted text or an error envelope.

Strings are modelled as `List Char` (`Str`), and the JavaScript string
operations the handlers use (`trim`, `trimStart`, `trimEnd`, `startsWith`,
`endsWith`, `substring`, `split`, `join`, `indexOf`, `String.prototype.replace`
with its `$`-substitution of the replacement string) are defined here over
that type.  Handlers are total functions from an environment record - the
request plus the responses the external world would give (model call outcome,
subprocess event, OCR upstream response) - to a response record, together with
a record of which external effects were performed.
-/

set_option maxRecDepth 100000

namespace QViz

/-- Strings, modelled as lists of characters. -/
abbrev Str := List Char

/-- Embed a Lean string literal as a `Str`. -/
def lit (s : String) : Str := s.data

/-- JavaScript whitespace test (restricted to the ASCII whitespace characters
that occur in this development; `Char.isWhitespace` covers space, tab, CR, LF). -/
def isWs (c : Char) : Bool := c.isWhitespace

/-- JS `String.prototype.trimStart`. -/
def trimStart (s : Str) : Str := s.dropWhile isWs

/-- JS `String.prototype.trimEnd`. -/
def trimEnd (s : Str) : Str := (s.reverse.dropWhile isWs).reverse

/-- JS `String.prototype.trim`. -/
def trim (s : Str) : Str := trimEnd (trimStart s)

/-- JS `s.startsWith(p)`. -/
def startsWith (s p : Str) : Bool := p.isPrefixOf s

/-- JS `s.endsWith(p)`. -/
def endsWith (s p : Str) : Bool := p.isSuffixOf s

/-- JS `s.substring(i, j)` for `i ≤ j ≤ s.length` (the only way the handlers
call it). -/
def substringJs (s : Str) (i j : Nat) : Str := (s.take j).drop i

/-- JS `s.split('\n')`: the result is never empty and juxtaposes the chunks
between newline characters. -/
def splitNl : Str → List Str
  | [] => [[]]
  | c :: cs =>
    let r := splitNl cs
    if c = '\n' then [] :: r
    else
      match r with
      | [] => [[c]]
      | h :: t => (c :: h) :: t

/-- JS `lines.join('\n')`. -/
def joinNl (ls : List Str) : Str := List.intercalate ['\n'] ls

/-- Index of the first occurrence of `pat` in `s` (`none` plays the role of
JS `indexOf` returning `-1`). -/
def findIdx (pat : Str) : Str → Option Nat
  | [] => if pat.isEmpty then some 0 else none
  | c :: cs =>
    if pat.isPrefixOf (c :: cs) then some 0
    else (findIdx pat cs).map (fun n => n + 1)

/-- JS `s.indexOf(pat, i)` for `0 ≤ i` (the handlers only reach the call with
a nonnegative effective start index). -/
def indexOfFrom (s pat : Str) (i : Nat) : Option Nat :=
  (findIdx pat (s.drop i)).map (fun n => n + i)

/-- Decimal rendering of a natural number, as JS template interpolation does. -/
def natToStr (n : Nat) : Str := Nat.toDigits 10 n

/-- Decimal rendering of an integer. -/
def intToStr : Int → Str
  | Int.ofNat n => natToStr n
  | Int.negSucc n => '-' :: natToStr (n + 1)

/-- Rendering of a Node `exitCode` value, which is a number or `null`. -/
def exitCodeToStr : Option Int → Str
  | none => lit "null"
  | some i => intToStr i

/-- The backquote character (code point 96). -/
def backquote : Char := Char.ofNat 96

/-- The apostrophe character (code point 39). -/
def apostrophe : Char := Char.ofNat 39

/-- The `GetSubstitution` step of JS `String.prototype.replace` with a string
search value: in the replacement string, `$$` yields `$`, `$&` yields the
matched substring, `$` followed by a backquote yields the portion before the
match, `$` followed by an apostrophe yields the portion after the match, and
every other character is copied verbatim. -/
def getSubstitution (matched before after : Str) : Str → Str
  | [] => []
  | '$' :: c :: rest =>
    if c = '$' then '$' :: getSubstitution matched before after rest
    else if c = '&' then matched ++ getSubstitution matched before after rest
    else if c = backquote then before ++ getSubstitution matched before after rest
    else if c = apostrophe then after ++ getSubstitution matched before after rest
    else '$' :: c :: getSubstitution matched before after rest
  | c :: rest => c :: getSubstitution matched before after rest

/-- JS `s.replace(pat, repl)` with string `pat` and string `repl`: replaces the
first occurrence of `pat`, running `repl` through `getSubstitution`. -/
def replaceFirst (s pat repl : Str) : Str :=
  match findIdx pat s with
  | none => s
  | some i =>
    let before := s.take i
    let after := s.drop (i + pat.length)
    before ++ getSubstitution pat before after repl ++ after

/-! ## Constants of the visualize handler -/

/-- Marker `MATPLOTLIB_BASE64_START:` (the `base64MarkerStart` constant). -/
def base64MarkerStart : Str := lit "MATPLOTLIB_BASE64_START:"

/-- Marker `:MATPLOTLIB_BASE64_END` (the `base64MarkerEnd` constant). -/
def base64MarkerEnd : Str := lit ":MATPLOTLIB_BASE64_END"

/-- The fixed refusal prefix the handler recognizes in the model output. -/
def refusalPrefix : Str := lit "ERROR:CANNOT_VISUALIZE:"

/-- The fenced-code opener with language tag, `` ```python ``. -/
def fencePython : Str := lit "```python"

/-- The bare fence marker, `` ``` ``. -/
def fenceBare : Str := lit "```"

/-! ## Data model of the visualize handler -/

/-- A JavaScript value as far as the `problemText` validation observes it:
either a string, or some non-string value of which only truthiness matters. -/
inductive JsVal where
  | str (s : Str)
  | other (truthy : Bool)
deriving DecidableEq

/-- The parsed JSON request body of the visualize route; `problemText` is
`none` when the property is absent. -/
structure ReqBody where
  problemText : Option JsVal
deriving DecidableEq

/-- Outcome of `await request.text()` / `JSON.parse`: either a parse failure
with the thrown error message, or a parsed body. -/
inductive BodyParse where
  | failed (message : Str)
  | parsed (body : ReqBody)
deriving DecidableEq

/-- The `promptFeedback` object of a model response; only `blockReason` is
inspected by the handler. -/
structure Feedback where
  blockReason : Option Str
deriving DecidableEq

/-- A (non-falsy) model response: its `promptFeedback` (possibly absent) and
the string returned by `response.text()`. -/
structure GenResponse where
  promptFeedback : Option Feedback
  text : Str
deriving DecidableEq

/-- Outcome of `model.generateContent(fullPrompt)`: the call (or the
subsequent `response.text()`) threw with a message, or it returned a result
whose `response` field is possibly falsy (`none`). -/
inductive ModelCall where
  | threw (message : Str)
  | returned (response : Option GenResponse)
deriving DecidableEq

/-- The event the spawned `python -c` subprocess delivers: either the spawn
itself fails, or the process closes with an exit code (`none` models Node's
`null` exit code) after emitting the given stdout and stderr. -/
inductive PyEvent where
  | spawnError (message : Str)
  | closed (exitCode : Option Int) (stdout stderr : Str)
deriving DecidableEq

/-- Result of the `executePython` promise: resolution with stdout, or
rejection with an error message. -/
inductive ExecResult where
  | resolved (stdout : Str)
  | rejected (message : Str)
deriving DecidableEq

/-- `executePython` (visualize route, helper): resolves with the full stdout
on exit code `0` (even when stderr is non-empty, which is only logged);
rejects with a message embedding the exit code and the captured stderr on any
other exit; rejects with a spawn message if the interpreter cannot start. -/
def executePython (_code : Str) (ev : PyEvent) : ExecResult :=
  match ev with
  | PyEvent.spawnError msg =>
    ExecResult.rejected (lit "Failed to start Python process: " ++ msg)
  | PyEvent.closed exitCode stdout stderr =>
    if exitCode = some 0 then ExecResult.resolved stdout
    else
      ExecResult.rejected
        (lit "Python script execution failed with code " ++ exitCodeToStr exitCode
          ++ lit ": " ++ stderr)

/-- The code-cleaning block of the visualize handler (the `cleanedCode`
sanitization): trim; strip a leading ```` ```python ```` (then `trimStart`);
strip a trailing ```` ``` ```` (then `trimEnd`); drop a first line that is
exactly `python` or ```` ```python ```` after trimming; finally strip a
lingering trailing ```` ``` ```` again. -/
def sanitize (generatedCode : Str) : Str :=
  let c0 := trim generatedCode
  let c1 :=
    if startsWith c0 fencePython then trimStart (c0.drop fencePython.length) else c0
  let c2 :=
    if endsWith c1 fenceBare then trimEnd (c1.take (c1.length - fenceBare.length)) else c1
  let c3 :=
    match splitNl c2 with
    | [] => c2
    | l0 :: rest =>
      if trim l0 = lit "python" then joinNl rest
      else if trim l0 = fencePython then joinNl rest
      else c2
  if endsWith c3 fenceBare then trimEnd (c3.take (c3.length - fenceBare.length)) else c3

/-- The `details` value of an error envelope: the handler passes either a
string or the whole `promptFeedback` object. -/
inductive Details where
  | text (s : Str)
  | feedbackObj (fb : Feedback)
deriving DecidableEq

/-- The JSON body the visualize handler passes to `NextResponse.json`: a
success body sets `imageBase64`, an error body sets `error` and possibly
`details`. -/
structure VisBody where
  imageBase64 : Option Str := none
  error : Option Str := none
  details : Option Details := none
deriving DecidableEq

/-- A response of the visualize handler: HTTP status plus JSON body. -/
structure VisResp where
  status : Nat
  body : VisBody
deriving DecidableEq

/-- Which external effects the visualize handler performed: reading/parsing
the request body, calling the generation model, spawning the interpreter. -/
structure VisEffects where
  bodyRead : Bool
  modelCalled : Bool
  pythonSpawned : Bool
deriving DecidableEq

/-- The environment of one visualize request: the credential, the request
body parse outcome, and what the model and the subprocess would do if
consulted. -/
structure VisEnv where
  geminiApiKey : Option Str
  bodyParse : BodyParse
  modelCall : ModelCall
  pyEvent : PyEvent
deriving DecidableEq

/-- The JS validity test on `problemText`
(`!problemText || typeof problemText !== 'string' || problemText.trim() === ''`,
negated): only a string value that is non-empty and has non-blank content
passes. -/
def validProblemText : Option JsVal → Bool
  | some (JsVal.str s) => !s.isEmpty && !(trim s).isEmpty
  | _ => false

/-- Truthiness of the optional `blockReason` string
(`response.promptFeedback?.blockReason`): present and non-empty. -/
def blockReasonTruthy : Option Feedback → Option (Feedback × Str)
  | some fb =>
    match fb.blockReason with
    | some r => if r.isEmpty then none else some (fb, r)
    | none => none
  | none => none

/-- The marker-extraction tail of the visualize handler (given the resolved
`pythonOutput`): find the first start marker, then the first end marker from
`startIndex + base64MarkerStart.length` on; on success respond `200` with the
substring strictly between them, otherwise respond `500` with the raw output
embedded in the `details` string.  (When the start marker is absent, JS
computes `endIndex` from position `-1 + 24`; since success requires both
indices to be found, the observable behaviour is the same.) -/
def respondWithOutput (pythonOutput : Str) : VisResp :=
  match indexOfFrom pythonOutput base64MarkerStart 0 with
  | some startIndex =>
    match indexOfFrom pythonOutput base64MarkerEnd (startIndex + base64MarkerStart.length) with
    | some endIndex =>
      { status := 200,
        body :=
          { imageBase64 :=
              some (substringJs pythonOutput (startIndex + base64MarkerStart.length) endIndex) } }
    | none =>
      { status := 500,
        body := { error := some (lit "Failed to process visualization from Python script"),
                  details := some (Details.text
                    (lit "Could not find base64 image markers in the script output. Python output was: "
                      ++ pythonOutput)) } }
  | none =>
    { status := 500,
      body := { error := some (lit "Failed to process visualization from Python script"),
                details := some (Details.text
                  (lit "Could not find base64 image markers in the script output. Python output was: "
                    ++ pythonOutput)) } }

/-- The visualize route handler (`POST`), as a function of the request
environment, returning the response and the effects performed.  Mirrors the
source order: credential check, body parse, `problemText` validation, model
call, block-reason check, empty-output check, refusal-prefix check,
sanitization, execution, marker extraction. -/
def visualizePost (env : VisEnv) : VisResp × VisEffects :=
  match env.geminiApiKey with
  | none =>
    ({ status := 500,
       body := { error := some (lit "AI service configuration error - API key not found"),
                 details := some (Details.text
                   (lit "Please set the GEMINI_API_KEY environment variable")) } },
     { bodyRead := false, modelCalled := false, pythonSpawned := false })
  | some _ =>
    match env.bodyParse with
    | BodyParse.failed m =>
      ({ status := 400,
         body := { error := some (lit "Invalid JSON in request body"),
                   details := some (Details.text m) } },
       { bodyRead := true, modelCalled := false, pythonSpawned := false })
    | BodyParse.parsed b =>
      if validProblemText b.problemText then
        match env.modelCall with
        | ModelCall.threw m =>
          ({ status := 500,
             body := { error := some (lit "Error calling Gemini API"),
                       details := some (Details.text m) } },
           { bodyRead := true, modelCalled := true, pythonSpawned := false })
        | ModelCall.returned none =>
          ({ status := 500,
             body := { error := some (lit "AI model returned an empty response") } },
           { bodyRead := true, modelCalled := true, pythonSpawned := false })
        | ModelCall.returned (some resp) =>
          match blockReasonTruthy resp.promptFeedback with
          | some (fb, r) =>
            ({ status := 400,
               body := { error := some (lit "Content blocked: " ++ r),
                         details := some (Details.feedbackObj fb) } },
             { bodyRead := true, modelCalled := true, pythonSpawned := false })
          | none =>
            let generatedCode := resp.text
            if generatedCode.isEmpty || (trim generatedCode).isEmpty then
              ({ status := 500,
                 body := { error := some (lit "Empty response from AI") } },
               { bodyRead := true, modelCalled := true, pythonSpawned := false })
            else if startsWith generatedCode refusalPrefix then
              ({ status := 422,
                 body := { error := some (lit "Problem cannot be visualized by AI"),
                           details := some (Details.text generatedCode) } },
               { bodyRead := true, modelCalled := true, pythonSpawned := false })
            else
              let cleanedCode := sanitize generatedCode
              match executePython cleanedCode env.pyEvent with
              | ExecResult.resolved pythonOutput =>
                (respondWithOutput pythonOutput,
                 { bodyRead := true, modelCalled := true, pythonSpawned := true })
              | ExecResult.rejected m =>
                ({ status := 500,
                   body := { error := some (lit "Error executing visualization script"),
                             details := some (Details.text m) } },
                 { bodyRead := true, modelCalled := true, pythonSpawned := true })
      else
        ({ status := 400,
           body := { error := some (lit "No problem text provided or text is invalid.") } },
         { bodyRead := true, modelCalled := false, pythonSpawned := false })

/-! ## Data model of the OCR handler -/

/-- One entry of the OCR.space `ParsedResults` array; the handler reads only
`ParsedText`. -/
structure ParsedResult where
  ParsedText : Str
deriving DecidableEq

/-- The parsed JSON payload of a successful OCR.space response, as far as the
handler inspects it. -/
structure OcrData where
  IsErroredOnProcessing : Bool
  ErrorMessage : Option (List Str)
  ParsedResults : Option (List ParsedResult)
deriving DecidableEq

/-- The upstream OCR.space call outcome: a non-`ok` HTTP response (with its
status and the error detail string extracted from its JSON body, `none` when
the body yields neither `ErrorMessage` nor `ErrorDetails`), or an `ok`
response with parsed data. -/
inductive OcrUpstream where
  | notOk (status : Nat) (errDetail : Option Str)
  | ok (data : OcrData)
deriving DecidableEq

/-- The environment of one OCR request: whether a file was provided, the
credential, and the upstream response. -/
structure OcrEnv where
  filePresent : Bool
  ocrSpaceApiKey : Option Str
  upstream : OcrUpstream
deriving DecidableEq

/-- The JSON body the OCR handler passes to `NextResponse.json`. -/
structure OcrBody where
  extractedText : Option Str := none
  ocrData : Option OcrData := none
  error : Option Str := none
  details : Option Str := none
deriving DecidableEq

/-- A response of the OCR handler: HTTP status plus JSON body. -/
structure OcrResp where
  status : Nat
  body : OcrBody
deriving DecidableEq

/-- The OCR route handler (`POST`): file check, credential check, upstream
call; on a non-`ok` upstream response echo its status with a detail fallback;
on a processing error respond `500` with the joined `ErrorMessage` (or a
fallback when absent or joining to the empty string); with no parsed results
respond `200` with the sentinel text and the raw data; otherwise respond
`200` with the first result's `ParsedText`. -/
def ocrPost (env : OcrEnv) : OcrResp :=
  if !env.filePresent then
    { status := 400, body := { error := some (lit "No file provided.") } }
  else
    match env.ocrSpaceApiKey with
    | none =>
      { status := 500, body := { error := some (lit "OCR service configuration error.") } }
    | some _ =>
      match env.upstream with
      | OcrUpstream.notOk st errDetail =>
        { status := st,
          body := { error := some (lit "OCR API request failed with status "
                      ++ natToStr st ++ lit "."),
                    details := some (errDetail.getD (lit "Unknown OCR API error")) } }
      | OcrUpstream.ok d =>
        if d.IsErroredOnProcessing then
          { status := 500,
            body := { error := some (lit "OCR processing failed."),
                      details := some
                        (match d.ErrorMessage with
                         | some msgs =>
                           let j := List.intercalate (lit ", ") msgs
                           if j.isEmpty then lit "See OCR API logs for details." else j
                         | none => lit "See OCR API logs for details.") } }
        else
          match d.ParsedResults with
          | none =>
            { status := 200,
              body := { extractedText := some (lit "No text found in image."),
                        ocrData := some d } }
          | some [] =>
            { status := 200,
              body := { extractedText := some (lit "No text found in image."),
                        ocrData := some d } }
          | some (r :: _) =>
            { status := 200, body := { extractedText := some r.ParsedText } }

/-! ## The prompt template and prompt construction -/

/-- First quarter of the template text preceding the placeholder.  The
`ENGINEERED_PROMPT_TEMPLATE` source literal is transcribed here in chunks
(concatenated below) so that facts about it stay within the kernel evaluator
depth; escaped backquotes of the TS template literal are unescaped. -/
def tmplPreA : Str := lit "\nYou are an expert Python programmer specializing in mathematical visualizations.\nYour task is to take a math problem description and generate Python code to visualize it.\n\nThe visualization should be clear, mathematically accurate, and aesthetically pleasing.\n\nKey requirements for the visualization:\n- When relevant to the problem, include text annotations directly on the image. These annotations should display:\n    - Lengths of givensides (e.g., \x273cm\x27, \x27x units\x27).\n    - given areas (e.g., \x27Area = 35 cm²\x27).\n    - Measures of angles (e.g., \x2730°\x27, \x27θ\x27).\n    - Coordinates of important points only if they are part of the proble"

/-- Next chunk of the template text preceding the placeholder. -/
def tmplPreB : Str := lit "m.\n- Use Matplotlib\x27s `plt.text()` or an Axes object\x27s `ax.text()` / `ax.annotate()` methods for these text annotations.\n- Ensure all annotations are legible, clearly positioned (e.g., near the feature they describe but not overlapping other important elements or each other), with minimal text and appropriately sized for clarity.\n- The numerical values, variables, and units in these annotations must precisely match the problem statement.\n- Represent geometric figures accurately according to the problem\x27s specifications (e.g., right angles should appear as 90 degrees, relative lengths should be visually proportional if speci"

/-- Next chunk of the template text preceding the placeholder. -/
def tmplPreC : Str := lit "fic values are given, etc.).\n\nUse the Matplotlib library for plotting both analytic geometry problems (lines, functions, points on a coordinate plane) and general geometric shapes (triangles, circles, polygons, angles).\nEnsure all geometric constructions and renderings are done directly with Matplotlib.\n\nOutput ONLY the Python code required to generate the visualization. Do not include any explanatory text, markdown formatting, or anything other than the Python code itself.\n\nImportant: The Matplotlib plot should be converted to a base64 encoded string directly in the Python code and printed to standard output. \nSpecifically"

/-- Next chunk of the template text preceding the placeholder. -/
def tmplPreD : Str := lit ", after creating the plot with plt.figure() (or plt.subplots()), use the following snippet to get the base64 string:\n\nimport io\nimport base64\n\npic_iobytes = io.BytesIO()\nplt.savefig(pic_iobytes, format=\x27png\x27)\npic_iobytes.seek(0)\npic_hash = base64.b64encode(pic_iobytes.read())\nprint(f\"MATPLOTLIB_BASE64_START:\x7bpic_hash.decode(\x27utf-8\x27)\x7d:MATPLOTLIB_BASE64_END\")\nplt.close() # Close the plot to free up memory\n\nEnsure no other print statements are present in the Python code output, only the base64 string in the format specified above.\nDo not save to a file like \x27visualization.png\x27.\n\nHere is the math problem:\n--- START PROBLEM ---\n"

/-- The template text preceding the `\x7bPROBLEM_TEXT\x7d` placeholder. -/
def templatePre : Str := tmplPreA ++ tmplPreB ++ tmplPreC ++ tmplPreD

/-- The template text following the placeholder. -/
def templatePost : Str := lit "\n--- END PROBLEM ---\n\nPython code (printing base64 string of the plot):\n"

/-- The placeholder the handler replaces in the template. -/
def placeholderPT : Str := lit "\x7bPROBLEM_TEXT\x7d"

/-- The `ENGINEERED_PROMPT_TEMPLATE` constant: the text before the
placeholder, the placeholder, and the text after it. -/
def ENGINEERED_PROMPT_TEMPLATE : Str :=
  templatePre ++ placeholderPT ++ templatePost

/-- `fullPrompt` (the prompt the handler sends to the model): JS
`ENGINEERED_PROMPT_TEMPLATE.replace('\x7bPROBLEM_TEXT\x7d', problemText)`. -/
def fullPrompt (problemText : Str) : Str :=
  replaceFirst ENGINEERED_PROMPT_TEMPLATE placeholderPT problemText

/-- Modelled from the spec wording of prompt construction ("the fixed
instructional template with the placeholder replaced by that problem text,
embedded literally and unchanged"): splice the problem text between the two
fixed template parts. -/
def promptSpecLiteral (problemText : Str) : Str :=
  templatePre ++ problemText ++ templatePost

/-! ## Library lemmas about the string operations -/

/-- Whether `pat` is a prefix of `l` only depends on the first
`pat.length` characters of `l`. -/
theorem isPrefixOf_take (pat l : Str) :
    pat.isPrefixOf (l.take pat.length) = pat.isPrefixOf l := by
  cases h : pat.isPrefixOf l with
  | true =>
    rw [List.isPrefixOf_iff_prefix] at h ⊢
    obtain ⟨t, rfl⟩ := h
    rw [List.take_left]
  | false =>
    cases h2 : pat.isPrefixOf (l.take pat.length) with
    | false => rfl
    | true =>
      exfalso
      rw [List.isPrefixOf_iff_prefix] at h2
      have h3 := h2.trans (List.take_prefix _ _)
      rw [← List.isPrefixOf_iff_prefix] at h3
      rw [h3] at h
      exact Bool.noConfusion h

/-- Characterization of `findIdx`: it returns `some n` exactly when `pat`
matches at position `n` and at no earlier position. -/
theorem findIdx_eq_some_iff (pat : Str) : ∀ (s : Str) (n : Nat),
    findIdx pat s = some n ↔
      pat.isPrefixOf (s.drop n) = true ∧ ∀ k < n, pat.isPrefixOf (s.drop k) = false := by
  intro s
  induction s with
  | nil =>
    intro n
    by_cases hp : pat = []
    · subst hp
      constructor
      · intro h
        obtain rfl : n = 0 := by
          simp [findIdx] at h
          omega
        exact ⟨by simp [List.isPrefixOf], fun k hk => absurd hk (by omega)⟩
      · rintro ⟨-, h⟩
        rcases Nat.eq_zero_or_pos n with rfl | hn
        · simp [findIdx]
        · exact absurd (h 0 hn) (by simp [List.isPrefixOf])
    · simp only [findIdx, List.drop_nil]
      rw [if_neg (by simpa [List.isEmpty_iff] using hp)]
      cases pat with
      | nil => exact absurd rfl hp
      | cons c cs => simp [List.isPrefixOf]
  | cons c cs ih =>
    intro n
    by_cases hpre : pat.isPrefixOf (c :: cs) = true
    · rw [findIdx, if_pos hpre]
      constructor
      · intro h
        obtain rfl : n = 0 := by
          simp only [Option.some.injEq] at h
          omega
        exact ⟨by simpa using hpre, fun k hk => absurd hk (by omega)⟩
      · rintro ⟨-, h⟩
        rcases Nat.eq_zero_or_pos n with rfl | hn
        · rfl
        · have h0 := h 0 hn
          rw [List.drop_zero] at h0
          rw [h0] at hpre
          exact absurd hpre (by simp)
    · have hpre' : pat.isPrefixOf (c :: cs) = false := by
        cases hb : pat.isPrefixOf (c :: cs) with
        | false => rfl
        | true => exact absurd hb hpre
      rw [findIdx, if_neg hpre]
      cases n with
      | zero =>
        simp only [List.drop_zero]
        constructor
        · intro h
          obtain ⟨j, -, hj⟩ := Option.map_eq_some'.mp h
          exact absurd hj (by omega)
        · rintro ⟨h, -⟩
          exact absurd h hpre
      | succ m =>
        constructor
        · intro h
          obtain ⟨j, hj, hjm⟩ := Option.map_eq_some'.mp h
          obtain ⟨h1, h2⟩ := (ih j).mp hj
          obtain rfl : j = m := by omega
          refine ⟨by simpa using h1, ?_⟩
          intro k hk
          cases k with
          | zero => simpa using hpre'
          | succ j' => simpa using h2 j' (by omega)
        · rintro ⟨h1, h2⟩
          have hm : findIdx pat cs = some m := by
            refine (ih m).mpr ⟨by simpa using h1, ?_⟩
            intro k hk
            simpa using h2 (k + 1) (by omega)
          simp [hm]

/-- `findIdx` finds position `0` when the string begins with the pattern. -/
theorem findIdx_self_append (pat rest : Str) : findIdx pat (pat ++ rest) = some 0 := by
  rw [findIdx_eq_some_iff]
  refine ⟨?_, by omega⟩
  rw [List.drop_zero, List.isPrefixOf_iff_prefix]
  exact ⟨rest, rfl⟩

/-- No occurrence of `pat` starts strictly before position `n` of `s`. -/
def noOccBefore (pat s : Str) (n : Nat) : Prop :=
  ∀ k < n, pat.isPrefixOf (s.drop k) = false

instance (pat s : Str) (n : Nat) : Decidable (noOccBefore pat s n) := by
  unfold noOccBefore
  infer_instance

/-- An occurrence of `pat` starting inside `a` within `a ++ b` only sees the
first `pat.length` characters of `b`. -/
theorem isPrefixOf_drop_append (pat a b : Str) (k : Nat) (hk : k < a.length) :
    pat.isPrefixOf ((a ++ b).drop k) = pat.isPrefixOf ((a ++ b.take pat.length).drop k) := by
  have hd1 : (a ++ b).drop k = a.drop k ++ b := by
    rw [List.drop_append_eq_append_drop, Nat.sub_eq_zero_of_le (by omega), List.drop_zero]
  have hd2 : (a ++ b.take pat.length).drop k = a.drop k ++ b.take pat.length := by
    rw [List.drop_append_eq_append_drop, Nat.sub_eq_zero_of_le (by omega), List.drop_zero]
  rw [hd1, hd2, ← isPrefixOf_take pat (a.drop k ++ b),
    ← isPrefixOf_take pat (a.drop k ++ b.take pat.length)]
  congr 1
  have e1 : (a.drop k ++ b).take pat.length
      = (a.drop k).take pat.length ++ b.take (pat.length - (a.drop k).length) :=
    List.take_append_eq_append_take
  have e2 : (a.drop k ++ b.take pat.length).take pat.length
      = (a.drop k).take pat.length
          ++ (b.take pat.length).take (pat.length - (a.drop k).length) :=
    List.take_append_eq_append_take
  rw [e1, e2, List.take_take, Nat.min_eq_left (by omega)]

/-- Computing `findIdx` over a concatenation chunk by chunk: if `pat` does
not occur starting inside `a` (checking `pat.length` characters into `b`)
and first occurs at `m` in `b`, it first occurs at `a.length + m` in
`a ++ b`. -/
theorem findIdx_append_chunk (pat a b : Str) (m : Nat)
    (ha : noOccBefore pat (a ++ b.take pat.length) a.length)
    (hb : findIdx pat b = some m) :
    findIdx pat (a ++ b) = some (a.length + m) := by
  obtain ⟨hb1, hb2⟩ := (findIdx_eq_some_iff pat b m).mp hb
  rw [findIdx_eq_some_iff]
  constructor
  · rw [List.drop_append_eq_append_drop, List.drop_eq_nil_of_le (by omega),
      Nat.add_sub_cancel_left, List.nil_append]
    exact hb1
  · intro k hk
    by_cases hka : k < a.length
    · rw [isPrefixOf_drop_append pat a b k hka]
      exact ha k hka
    · rw [List.drop_append_eq_append_drop, List.drop_eq_nil_of_le (by omega),
        List.nil_append]
      exact hb2 (k - a.length) (by omega)

/-- `trim` of a string with a non-whitespace character is nonempty. -/
theorem trim_ne_nil_of_mem (s : Str) (c : Char) (hc : c ∈ s) (hw : isWs c = false) :
    trim s ≠ [] := by
  intro h
  unfold trim trimEnd at h
  rw [List.reverse_eq_nil_iff, List.dropWhile_eq_nil_iff] at h
  have hall : ∀ x ∈ trimStart s, isWs x = true := by
    intro x hx
    exact h x (by simpa using hx)
  have hcs : c ∈ trimStart s ∨ c ∈ s.takeWhile isWs := by
    have this : s.takeWhile isWs ++ s.dropWhile isWs = s :=
      List.takeWhile_append_dropWhile isWs s
    unfold trimStart
    rw [← this] at hc
    rcases List.mem_append.mp hc with h1 | h2
    · exact Or.inr h1
    · exact Or.inl h2
  rcases hcs with h1 | h2
  · rw [hall c h1] at hw
    exact Bool.noConfusion hw
  · rw [List.mem_takeWhile_imp h2] at hw
    exact Bool.noConfusion hw

/-- Characterization of `findIdx` returning `none`: the pattern matches at no
position. -/
theorem findIdx_eq_none_iff (pat : Str) : ∀ (s : Str),
    findIdx pat s = none ↔ ∀ k, pat.isPrefixOf (s.drop k) = false := by
  intro s
  induction s with
  | nil =>
    cases pat with
    | nil =>
      constructor
      · intro h
        exact absurd h (by simp [findIdx])
      · intro h
        exact absurd (h 0) (by simp [List.isPrefixOf])
    | cons d ds =>
      constructor
      · intro _ k
        simp [List.isPrefixOf]
      · intro _
        simp [findIdx]
  | cons c cs ih =>
    by_cases hpre : pat.isPrefixOf (c :: cs) = true
    · simp only [findIdx, if_pos hpre]
      constructor
      · intro h
        exact absurd h (by simp)
      · intro h
        have h0 := h 0
        rw [List.drop_zero, hpre] at h0
        exact absurd h0 (by simp)
    · simp only [findIdx, if_neg hpre]
      rw [Option.map_eq_none', ih]
      constructor
      · intro h k
        cases k with
        | zero =>
          rw [List.drop_zero]
          cases hb : pat.isPrefixOf (c :: cs) with
          | false => rfl
          | true => exact absurd hb hpre
        | succ j => simpa using h j
      · intro h j
        simpa using h (j + 1)

/-- A `noOccBefore` bound from a `findIdx` run that found nothing. -/
theorem noOccBefore_of_none (pat s : Str) (n : Nat) (h : findIdx pat s = none) :
    noOccBefore pat s n :=
  fun k _ => (findIdx_eq_none_iff pat s).mp h k

/-- A `noOccBefore` bound from a `findIdx` run that found a later position. -/
theorem noOccBefore_of_some (pat s : Str) (m n : Nat) (h : findIdx pat s = some m)
    (hn : n ≤ m) : noOccBefore pat s n :=
  fun k hk => ((findIdx_eq_some_iff pat s m).mp h).2 k (by omega)

/-- The placeholder first occurs in the template exactly where the template
was split: right after `templatePre`. -/
theorem findIdx_placeholder :
    findIdx placeholderPT ENGINEERED_PROMPT_TEMPLATE = some templatePre.length := by
  have hD : findIdx placeholderPT (tmplPreD ++ (placeholderPT ++ templatePost))
      = some (tmplPreD.length + 0) := by
    refine findIdx_append_chunk _ _ _ _ ?_ (findIdx_self_append _ _)
    exact noOccBefore_of_some _ _ 631 _ (by decide) (by decide)
  have hC : findIdx placeholderPT
      (tmplPreC ++ (tmplPreD ++ (placeholderPT ++ templatePost)))
      = some (tmplPreC.length + (tmplPreD.length + 0)) :=
    findIdx_append_chunk _ _ _ _ (noOccBefore_of_none _ _ _ (by decide)) hD
  have hB : findIdx placeholderPT
      (tmplPreB ++ (tmplPreC ++ (tmplPreD ++ (placeholderPT ++ templatePost))))
      = some (tmplPreB.length + (tmplPreC.length + (tmplPreD.length + 0))) :=
    findIdx_append_chunk _ _ _ _ (noOccBefore_of_none _ _ _ (by decide)) hC
  have hA : findIdx placeholderPT
      (tmplPreA ++ (tmplPreB ++ (tmplPreC ++ (tmplPreD ++ (placeholderPT ++ templatePost)))))
      = some (tmplPreA.length + (tmplPreB.length + (tmplPreC.length + (tmplPreD.length + 0)))) :=
    findIdx_append_chunk _ _ _ _ (noOccBefore_of_none _ _ _ (by decide)) hB
  have he : ENGINEERED_PROMPT_TEMPLATE
      = tmplPreA ++ (tmplPreB ++ (tmplPreC ++ (tmplPreD ++ (placeholderPT ++ templatePost)))) := by
    simp [ENGINEERED_PROMPT_TEMPLATE, templatePre, List.append_assoc]
  have hl : templatePre.length
      = tmplPreA.length + (tmplPreB.length + (tmplPreC.length + (tmplPreD.length + 0))) := by
    simp [templatePre, List.length_append, Nat.add_assoc]
  rw [he, hl]
  exact hA

/-- Reduction of `fullPrompt`: the prompt is the template text before the
placeholder, then the `$`-substituted problem text, then the text after it. -/
theorem fullPrompt_eq (pt : Str) :
    fullPrompt pt
      = templatePre ++ getSubstitution placeholderPT templatePre templatePost pt
          ++ templatePost := by
  have hb : ENGINEERED_PROMPT_TEMPLATE.take templatePre.length = templatePre := by
    rw [ENGINEERED_PROMPT_TEMPLATE, List.append_assoc]
    exact List.take_left _ _
  have ha : ENGINEERED_PROMPT_TEMPLATE.drop (templatePre.length + placeholderPT.length)
      = templatePost := by
    rw [ENGINEERED_PROMPT_TEMPLATE]
    exact List.drop_left' (by rw [List.length_append])
  simp only [fullPrompt, replaceFirst, findIdx_placeholder]
  rw [hb, ha]

/-- `getSubstitution` is the identity on replacement strings that contain no
dollar sign. -/
theorem getSubstitution_of_noDollar (m b a : Str) (repl : Str)
    (h : ∀ c ∈ repl, c ≠ '$') : getSubstitution m b a repl = repl := by
  induction repl using getSubstitution.induct m b a
  all_goals simp_all [getSubstitution]

/-! ## Claim theorems -/

/-- **C8** (counterexample): prompt construction does not embed every problem
text literally — for the input `$$`, JS replacement-pattern substitution
collapses it to a single `$` in the prompt, so the prompt differs from the
literal splice of the template around `$$`. -/
theorem c8_counterexample : fullPrompt (lit "$$") ≠ promptSpecLiteral (lit "$$") := by
  intro h
  rw [fullPrompt_eq, promptSpecLiteral] at h
  have h1 := List.append_cancel_right h
  have h2 := List.append_cancel_left h1
  have h3 : getSubstitution placeholderPT templatePre templatePost (lit "$$") = ['$'] := rfl
  rw [h3] at h2
  exact absurd h2 (by decide)

/-- **C8** (amended): for every problem text containing no dollar sign, the
prompt sent to the generation model is exactly the fixed template with the
placeholder replaced by that problem text, embedded literally and unchanged;
texts containing JS replacement patterns (`$$`, `$&`, a `$` before a
backquote or an apostrophe) are not embedded literally. -/
theorem c8_prompt_literal_embedding (pt : Str) (h : ∀ c ∈ pt, c ≠ '$') :
    fullPrompt pt = promptSpecLiteral pt := by
  rw [fullPrompt_eq, promptSpecLiteral, getSubstitution_of_noDollar _ _ _ _ h]

/-- Witness for the amended C8 at the concrete input `circle radius 5`. -/
theorem c8_prompt_literal_embedding_witness :
    (∀ c ∈ lit "circle radius 5", c ≠ '$') ∧
      fullPrompt (lit "circle radius 5") = promptSpecLiteral (lit "circle radius 5") :=
  ⟨by decide, c8_prompt_literal_embedding (lit "circle radius 5") (by decide)⟩

/-- **C7**: when the interpreter subprocess exits `0`, `executePython`
resolves with the full stdout even when stderr is non-empty; when it exits
with a non-zero code, it rejects with a message that ends with the captured
stderr verbatim and contains the decimal exit code. -/
theorem c7_executor_exit_behaviour (code out err : Str) (n : Int) (hn : n ≠ 0) :
    executePython code (PyEvent.closed (some 0) out err) = ExecResult.resolved out ∧
    ∃ pre, executePython code (PyEvent.closed (some n) out err)
        = ExecResult.rejected (pre ++ err) ∧ intToStr n <:+: pre := by
  constructor
  · simp [executePython]
  · refine ⟨lit "Python script execution failed with code " ++ exitCodeToStr (some n)
      ++ lit ": ", ?_, ?_⟩
    · rw [executePython, if_neg (by simpa using hn)]
    · exact ⟨lit "Python script execution failed with code ", lit ": ",
        by simp [exitCodeToStr]⟩

/-- Witness for C7 at exit code `1` with stderr `boom` (and, for the success
conjunct, non-empty stderr alongside exit code `0`). -/
theorem c7_executor_exit_behaviour_witness :
    executePython (lit "print(1)") (PyEvent.closed (some 0) (lit "ok") (lit "boom"))
        = ExecResult.resolved (lit "ok") ∧
    ∃ pre, executePython (lit "print(1)") (PyEvent.closed (some 1) (lit "ok") (lit "boom"))
        = ExecResult.rejected (pre ++ lit "boom") ∧ intToStr 1 <:+: pre :=
  c7_executor_exit_behaviour (lit "print(1)") (lit "ok") (lit "boom") 1 (by decide)

/-- **C2**: (a) when stdout decomposes as
`a ++ start-marker ++ p ++ end-marker ++ b` with no occurrence of the start
marker beginning before `a.length` and no occurrence of the end marker
beginning inside `p`, the extraction responds `200` with exactly `p` — the
substring strictly between the first start marker and the first end marker
after it; (b) when stdout contains no start marker at all, it responds `500`
with an error whose detail string has the full raw output as a suffix. -/
theorem c2_marker_extraction :
    (∀ a p b : Str,
      noOccBefore base64MarkerStart
          (a ++ base64MarkerStart ++ p ++ base64MarkerEnd ++ b) a.length →
      (∀ m < p.length,
        base64MarkerEnd.isPrefixOf (p.drop m ++ (base64MarkerEnd ++ b)) = false) →
      respondWithOutput (a ++ base64MarkerStart ++ p ++ base64MarkerEnd ++ b)
        = { status := 200, body := { imageBase64 := some p } }) ∧
    (∀ out : Str, findIdx base64MarkerStart out = none →
      ∃ d, respondWithOutput out
          = { status := 500,
              body := { error := some (lit "Failed to process visualization from Python script"),
                        details := some (Details.text d) } } ∧ out <:+ d) := by
  constructor
  · intro a p b h1 h2
    have hassoc : a ++ base64MarkerStart ++ p ++ base64MarkerEnd ++ b
        = a ++ (base64MarkerStart ++ (p ++ (base64MarkerEnd ++ b))) := by
      simp [List.append_assoc]
    rw [hassoc] at h1 ⊢
    -- the start marker first occurs at `a.length`
    have hstartIdx : findIdx base64MarkerStart
        (a ++ (base64MarkerStart ++ (p ++ (base64MarkerEnd ++ b)))) = some a.length := by
      rw [findIdx_eq_some_iff]
      refine ⟨?_, h1⟩
      rw [List.drop_left' rfl, List.isPrefixOf_iff_prefix]
      exact ⟨p ++ (base64MarkerEnd ++ b), rfl⟩
    have hstart : indexOfFrom (a ++ (base64MarkerStart ++ (p ++ (base64MarkerEnd ++ b))))
        base64MarkerStart 0 = some a.length := by
      rw [indexOfFrom, List.drop_zero, hstartIdx]
      simp
    -- the end marker first occurs at `p.length` past the start marker
    have hdrop : (a ++ (base64MarkerStart ++ (p ++ (base64MarkerEnd ++ b)))).drop
        (a.length + base64MarkerStart.length) = p ++ (base64MarkerEnd ++ b) := by
      rw [show a ++ (base64MarkerStart ++ (p ++ (base64MarkerEnd ++ b)))
          = (a ++ base64MarkerStart) ++ (p ++ (base64MarkerEnd ++ b)) by
            simp [List.append_assoc]]
      exact List.drop_left' (by rw [List.length_append])
    have hendIdx : findIdx base64MarkerEnd (p ++ (base64MarkerEnd ++ b)) = some p.length := by
      rw [findIdx_eq_some_iff]
      constructor
      · rw [List.drop_left' rfl, List.isPrefixOf_iff_prefix]
        exact ⟨b, rfl⟩
      · intro k hk
        have hdk : (p ++ (base64MarkerEnd ++ b)).drop k = p.drop k ++ (base64MarkerEnd ++ b) := by
          rw [List.drop_append_eq_append_drop, Nat.sub_eq_zero_of_le (by omega),
            List.drop_zero]
        rw [hdk]
        exact h2 k hk
    have hend : indexOfFrom (a ++ (base64MarkerStart ++ (p ++ (base64MarkerEnd ++ b))))
        base64MarkerEnd (a.length + base64MarkerStart.length)
        = some (p.length + (a.length + base64MarkerStart.length)) := by
      rw [indexOfFrom, hdrop, hendIdx]
      simp
    have hsub : substringJs (a ++ (base64MarkerStart ++ (p ++ (base64MarkerEnd ++ b))))
        (a.length + base64MarkerStart.length)
        (p.length + (a.length + base64MarkerStart.length)) = p := by
      rw [substringJs]
      rw [show a ++ (base64MarkerStart ++ (p ++ (base64MarkerEnd ++ b)))
          = ((a ++ base64MarkerStart) ++ p) ++ (base64MarkerEnd ++ b) by
            simp [List.append_assoc]]
      rw [List.take_left' (by simp [List.length_append]; omega)]
      exact List.drop_left' (by rw [List.length_append])
    simp only [respondWithOutput, hstart, hend, hsub]
  · intro out h
    refine ⟨lit "Could not find base64 image markers in the script output. Python output was: "
      ++ out, ?_, ?_⟩
    · have hstart : indexOfFrom out base64MarkerStart 0 = none := by
        rw [indexOfFrom, List.drop_zero, h]
        rfl
      simp only [respondWithOutput, hstart]
    · exact ⟨lit "Could not find base64 image markers in the script output. Python output was: ",
        rfl⟩

/-- Witness for C2: a concrete stdout with one well-formed marker pair, and a
concrete stdout with no markers. -/
theorem c2_marker_extraction_witness :
    respondWithOutput (lit "Log: " ++ base64MarkerStart ++ lit "iVBORw0" ++ base64MarkerEnd
        ++ lit "\n")
      = { status := 200, body := { imageBase64 := some (lit "iVBORw0") } } ∧
    ∃ d, respondWithOutput (lit "no markers here")
        = { status := 500,
            body := { error := some (lit "Failed to process visualization from Python script"),
                      details := some (Details.text d) } } ∧ lit "no markers here" <:+ d :=
  ⟨c2_marker_extraction.1 (lit "Log: ") (lit "iVBORw0") (lit "\n") (by decide) (by decide),
   c2_marker_extraction.2 (lit "no markers here") (by decide)⟩

/-- A nonempty list has `isEmpty = false`. -/
theorem isEmpty_false_of_ne_nil (l : Str) (h : l ≠ []) : l.isEmpty = false := by
  cases l with
  | nil => exact absurd rfl h
  | cons c cs => rfl

/-- **C5**: whenever the model output begins with the fixed refusal prefix
(and the request reaches the generation stage: key present, body parsed,
valid problem text, model returned an unblocked response), the handler
responds `422` with the policy-refusal error and does not spawn the
interpreter. -/
theorem c5_refusal_prefix_422 (env : VisEnv) (k : Str) (b : ReqBody) (resp : GenResponse)
    (rest : Str)
    (hk : env.geminiApiKey = some k) (hb : env.bodyParse = BodyParse.parsed b)
    (hv : validProblemText b.problemText = true)
    (hm : env.modelCall = ModelCall.returned (some resp))
    (hblock : blockReasonTruthy resp.promptFeedback = none)
    (htext : resp.text = refusalPrefix ++ rest) :
    (visualizePost env).1
      = { status := 422,
          body := { error := some (lit "Problem cannot be visualized by AI"),
                    details := some (Details.text resp.text) } } ∧
    (visualizePost env).2.pythonSpawned = false := by
  have hnil : resp.text ≠ [] := by
    rw [htext]
    intro hc
    have := (List.append_eq_nil.mp hc).1
    rw [refusalPrefix] at this
    exact absurd this (by decide)
  have hne : resp.text.isEmpty = false := isEmpty_false_of_ne_nil _ hnil
  have htr : (trim resp.text).isEmpty = false := by
    refine isEmpty_false_of_ne_nil _ (trim_ne_nil_of_mem _ 'E' ?_ (by decide))
    rw [htext]
    exact List.mem_append.mpr (Or.inl (by rw [refusalPrefix]; decide))
  have hstart : startsWith resp.text refusalPrefix = true := by
    rw [htext, startsWith, List.isPrefixOf_iff_prefix]
    exact ⟨rest, rfl⟩
  simp [visualizePost, hk, hb, hv, hm, hblock, hne, htr, hstart]

/-- C5 environment for the witness. -/
def envC5 : VisEnv :=
  { geminiApiKey := some (lit "k"),
    bodyParse := BodyParse.parsed { problemText := some (JsVal.str (lit "draw a dog")) },
    modelCall := ModelCall.returned (some
      { promptFeedback := none, text := refusalPrefix ++ lit " not a math problem" }),
    pyEvent := PyEvent.spawnError (lit "unused") }

/-- Witness for C5 at a concrete refusal output. -/
theorem c5_refusal_prefix_422_witness :
    (visualizePost envC5).1
      = { status := 422,
          body := { error := some (lit "Problem cannot be visualized by AI"),
                    details := some (Details.text
                      (refusalPrefix ++ lit " not a math problem")) } } ∧
    (visualizePost envC5).2.pythonSpawned = false :=
  c5_refusal_prefix_422 envC5 (lit "k")
    { problemText := some (JsVal.str (lit "draw a dog")) }
    { promptFeedback := none, text := refusalPrefix ++ lit " not a math problem" }
    (lit " not a math problem") (by rfl) (by rfl) (by decide) (by rfl) (by rfl) (by rfl)

/-- **C6**: when the credential is present and the body parses but the
problem text is missing, not a string, or empty after trimming, the handler
responds `400` and performs no model call and no subprocess spawn. -/
theorem c6_invalid_text_shortcircuit (env : VisEnv) (k : Str) (b : ReqBody)
    (hk : env.geminiApiKey = some k) (hb : env.bodyParse = BodyParse.parsed b)
    (hv : validProblemText b.problemText = false) :
    (visualizePost env).1
      = { status := 400,
          body := { error := some (lit "No problem text provided or text is invalid.") } } ∧
    (visualizePost env).2.modelCalled = false ∧
    (visualizePost env).2.pythonSpawned = false := by
  simp [visualizePost, hk, hb, hv]

/-- C6 environment for the witness: a problem text that is blank after
trimming. -/
def envC6 : VisEnv :=
  { geminiApiKey := some (lit "k"),
    bodyParse := BodyParse.parsed { problemText := some (JsVal.str (lit "   ")) },
    modelCall := ModelCall.threw (lit "must not be consulted"),
    pyEvent := PyEvent.spawnError (lit "must not be consulted") }

/-- Witness for C6 at a concrete blank problem text. -/
theorem c6_invalid_text_shortcircuit_witness :
    (visualizePost envC6).1
      = { status := 400,
          body := { error := some (lit "No problem text provided or text is invalid.") } } ∧
    (visualizePost envC6).2.modelCalled = false ∧
    (visualizePost envC6).2.pythonSpawned = false :=
  c6_invalid_text_shortcircuit envC6 (lit "k")
    { problemText := some (JsVal.str (lit "   ")) } (by rfl) (by rfl) (by decide)

/-- **C10**: when `GEMINI_API_KEY` is unset the handler responds `500` with
the configuration error before reading or parsing the body, for every request
body and every behaviour of the model and the subprocess, performing no
external effect at all. -/
theorem c10_missing_key_preempts_all (env : VisEnv) (h : env.geminiApiKey = none) :
    visualizePost env
      = ({ status := 500,
           body := { error := some (lit "AI service configuration error - API key not found"),
                     details := some (Details.text
                       (lit "Please set the GEMINI_API_KEY environment variable")) } },
         { bodyRead := false, modelCalled := false, pythonSpawned := false }) := by
  simp [visualizePost, h]

/-- C10 environment for the witness: missing key together with an invalid
JSON body. -/
def envC10 : VisEnv :=
  { geminiApiKey := none,
    bodyParse := BodyParse.failed (lit "Unexpected token"),
    modelCall := ModelCall.threw (lit "must not be consulted"),
    pyEvent := PyEvent.spawnError (lit "must not be consulted") }

/-- Witness for C10: even with an invalid JSON body, the missing key yields
the `500` configuration error and no effects. -/
theorem c10_missing_key_preempts_all_witness :
    visualizePost envC10
      = ({ status := 500,
           body := { error := some (lit "AI service configuration error - API key not found"),
                     details := some (Details.text
                       (lit "Please set the GEMINI_API_KEY environment variable")) } },
         { bodyRead := false, modelCalled := false, pythonSpawned := false }) :=
  c10_missing_key_preempts_all envC10 (by rfl)

/-- C4 environment: the model blocks the request with reason `SAFETY`. -/
def envC4 : VisEnv :=
  { geminiApiKey := some (lit "k"),
    bodyParse := BodyParse.parsed { problemText := some (JsVal.str (lit "draw")) },
    modelCall := ModelCall.returned (some
      { promptFeedback := some { blockReason := some (lit "SAFETY") }, text := lit "" }),
    pyEvent := PyEvent.spawnError (lit "unused") }

/-- **C4** (counterexample): on a blocked response the handler answers with
HTTP status `400`, not `422` — the blocked path is reached (the body carries
the content-blocked error) yet the status is not 422. -/
theorem c4_counterexample :
    (visualizePost envC4).1.body.error = some (lit "Content blocked: SAFETY") ∧
    (visualizePost envC4).1.status = 400 ∧ ¬((visualizePost envC4).1.status = 422) := by
  decide

/-- **C4** (amended): whenever the generation model blocks the request, the
handler surfaces a distinct content-blocked error (message `Content blocked:`
plus the reason, with the feedback object as details) but with HTTP status
`400` — the same class as bad input — not `422`; it does not spawn the
interpreter. -/
theorem c4_blocked_maps_to_400 (env : VisEnv) (k : Str) (b : ReqBody) (resp : GenResponse)
    (fb : Feedback) (r : Str)
    (hk : env.geminiApiKey = some k) (hb : env.bodyParse = BodyParse.parsed b)
    (hv : validProblemText b.problemText = true)
    (hm : env.modelCall = ModelCall.returned (some resp))
    (hblock : blockReasonTruthy resp.promptFeedback = some (fb, r)) :
    (visualizePost env).1
      = { status := 400,
          body := { error := some (lit "Content blocked: " ++ r),
                    details := some (Details.feedbackObj fb) } } ∧
    (visualizePost env).2.pythonSpawned = false := by
  simp [visualizePost, hk, hb, hv, hm, hblock]

/-- Witness for the amended C4 at the concrete blocked environment. -/
theorem c4_blocked_maps_to_400_witness :
    (visualizePost envC4).1
      = { status := 400,
          body := { error := some (lit "Content blocked: " ++ lit "SAFETY"),
                    details := some (Details.feedbackObj
                      { blockReason := some (lit "SAFETY") }) } } ∧
    (visualizePost envC4).2.pythonSpawned = false :=
  c4_blocked_maps_to_400 envC4 (lit "k")
    { problemText := some (JsVal.str (lit "draw")) }
    { promptFeedback := some { blockReason := some (lit "SAFETY") }, text := lit "" }
    { blockReason := some (lit "SAFETY") } (lit "SAFETY")
    (by rfl) (by rfl) (by decide) (by rfl) (by decide)

/-- **C9**: a successful OCR upstream response with no processing error and
zero parsed results yields a `200` response carrying the sentinel
`No text found in image.` (together with the raw data), not a failure. -/
theorem c9_ocr_zero_results_sentinel (env : OcrEnv) (k : Str) (d : OcrData)
    (hf : env.filePresent = true) (hk : env.ocrSpaceApiKey = some k)
    (hu : env.upstream = OcrUpstream.ok d) (he : d.IsErroredOnProcessing = false)
    (hr : d.ParsedResults = none ∨ d.ParsedResults = some []) :
    ocrPost env
      = { status := 200,
          body := { extractedText := some (lit "No text found in image."),
                    ocrData := some d } } := by
  rcases hr with hr | hr <;> simp [ocrPost, hf, hk, hu, he, hr]

/-- C9 environment for the witness: upstream succeeds with an empty
`ParsedResults` array. -/
def envC9 : OcrEnv :=
  { filePresent := true,
    ocrSpaceApiKey := some (lit "kk"),
    upstream := OcrUpstream.ok
      { IsErroredOnProcessing := false, ErrorMessage := none, ParsedResults := some [] } }

/-- Witness for C9 at the concrete empty-results upstream response. -/
theorem c9_ocr_zero_results_sentinel_witness :
    ocrPost envC9
      = { status := 200,
          body := { extractedText := some (lit "No text found in image."),
                    ocrData := some
                      { IsErroredOnProcessing := false, ErrorMessage := none,
                        ParsedResults := some [] } } } :=
  c9_ocr_zero_results_sentinel envC9 (lit "kk")
    { IsErroredOnProcessing := false, ErrorMessage := none, ParsedResults := some [] }
    (by rfl) (by rfl) (by rfl) (by rfl) (Or.inr rfl)

/-- A sanitizer output free of residual artifacts: equal to its own trim, not
starting with the fence opener, not ending with the bare fence, and with a
first line that trims to neither `python` nor the fence opener. -/
def sanitizeClean (y : Str) : Bool :=
  (trim y == y) && !(startsWith y fencePython) && !(endsWith y fenceBare) &&
    ((splitNl y).head?.all fun l0 =>
      !(trim l0 == lit "python") && !(trim l0 == fencePython))

/-- A clean string is a fixed point of the sanitizer. -/
theorem sanitize_fixed_of_clean (y : Str) (h : sanitizeClean y = true) : sanitize y = y := by
  rw [sanitizeClean] at h
  simp only [Bool.and_eq_true, Bool.not_eq_true', beq_iff_eq] at h
  obtain ⟨⟨⟨h1, h2⟩, h3⟩, h4⟩ := h
  cases hsp : splitNl y with
  | nil => simp [sanitize, h1, h2, h3, hsp]
  | cons l0 rest =>
    rw [hsp] at h4
    simp only [List.head?_cons, Option.all_some, Bool.and_eq_true, Bool.not_eq_true',
      beq_iff_eq] at h4
    obtain ⟨h5, h6⟩ := h4
    have h5' : trim l0 ≠ lit "python" := by simpa using h5
    have h6' : trim l0 ≠ fencePython := by simpa using h6
    simp [sanitize, h1, h2, h3, hsp, h5', h6']

/-- **C3** (counterexample): the sanitizer is not idempotent — for the input
`python\n x` the first pass drops the stray `python` line, leaving ` x`
with its indentation, and the second pass trims that indentation away. -/
theorem c3_counterexample :
    sanitize (sanitize (lit "python\n x")) ≠ sanitize (lit "python\n x") := by decide

/-- **C3** (amended): the sanitizer is idempotent at every input whose
sanitized output is free of residual artifacts (equal to its own trim, no
leading fence opener, no trailing fence, first line not a stray `python` or
fence-opener line); in general a second pass can strip further, so
`sanitize (sanitize x) = sanitize x` does not hold for all `x`. -/
theorem c3_sanitize_idempotent_on_clean (x : Str)
    (h : sanitizeClean (sanitize x) = true) :
    sanitize (sanitize x) = sanitize x :=
  sanitize_fixed_of_clean (sanitize x) h

/-- Witness for the amended C3 at a concrete already-clean script. -/
theorem c3_sanitize_idempotent_on_clean_witness :
    sanitizeClean (sanitize (lit "plt.plot()")) = true ∧
    sanitize (sanitize (lit "plt.plot()")) = sanitize (lit "plt.plot()") :=
  ⟨by decide, c3_sanitize_idempotent_on_clean (lit "plt.plot()") (by decide)⟩

/-- **C1**: every request environment produces exactly one of the two body
shapes — a `200` response carrying `imageBase64` and no `error`, or a
non-`200` response carrying `error` and no `imageBase64`. -/
theorem c1_response_dichotomy (env : VisEnv) :
    ((visualizePost env).1.status = 200 ∧
      (∃ img, (visualizePost env).1.body.imageBase64 = some img) ∧
      (visualizePost env).1.body.error = none) ∨
    ((visualizePost env).1.status ≠ 200 ∧
      (∃ e, (visualizePost env).1.body.error = some e) ∧
      (visualizePost env).1.body.imageBase64 = none) := by
  obtain ⟨key, bp, mc, py⟩ := env
  cases key with
  | none => right; simp [visualizePost]
  | some k =>
    cases bp with
    | failed m => right; simp [visualizePost]
    | parsed b =>
      by_cases hv : validProblemText b.problemText
      case neg => right; simp [visualizePost, hv]
      case pos =>
        cases mc with
        | threw m => right; simp [visualizePost, hv]
        | returned r =>
          cases r with
          | none => right; simp [visualizePost, hv]
          | some resp =>
            cases hblock : blockReasonTruthy resp.promptFeedback with
            | some pr => right; simp [visualizePost, hv, hblock]
            | none =>
              by_cases hempty : (resp.text.isEmpty || (trim resp.text).isEmpty) = true
              case pos => right; simp [visualizePost, hv, hblock, hempty]
              case neg =>
                rw [Bool.not_eq_true] at hempty
                by_cases href : startsWith resp.text refusalPrefix = true
                case pos => right; simp [visualizePost, hv, hblock, hempty, href]
                case neg =>
                  rw [Bool.not_eq_true] at href
                  cases hex : executePython (sanitize resp.text)
                      (VisEnv.mk (some k) (BodyParse.parsed b)
                        (ModelCall.returned (some resp)) py).pyEvent with
                  | rejected m =>
                    right
                    simp [visualizePost, hv, hblock, hempty, href, hex]
                  | resolved out =>
                    have hmain : (visualizePost
                        (VisEnv.mk (some k) (BodyParse.parsed b)
                          (ModelCall.returned (some resp)) py)).1
                        = respondWithOutput out := by
                      simp [visualizePost, hv, hblock, hempty, href, hex]
                    rw [hmain]
                    cases hs : indexOfFrom out base64MarkerStart 0 with
                    | none => right; simp [respondWithOutput, hs]
                    | some si =>
                      cases he : indexOfFrom out base64MarkerEnd
                          (si + base64MarkerStart.length) with
                      | none => right; simp [respondWithOutput, hs, he]
                      | some ei => left; simp [respondWithOutput, hs, he]

end QViz
